import Mathlib

/-!
Verification development for the ads-checker service
(`app/services/simple_service.py` and its collaborators).

Shallow embedding conventions:
* Python `Optional[str]` becomes `Option String`; Python truthiness of such a
  value (`if s:`) is `truthy` below (`None` and `""` are falsy).
* Network effects are abstracted into explicit environment records: each
  environment field holds the value the corresponding external call would
  produce (already folded through the callee's own internal `try/except`
  recovery, which maps any transport failure to `None`/`False` per the source).
* Pure string/regex computation from the source is translated directly into
  executable Lean functions on `List Char`.
* The possibility that an unexpected exception escapes a whole pipeline step
  (the event the service-level `try/except` in `check_ads` exists for) is
  modelled by optional injected faults in the environment.
-/

set_option autoImplicit false

namespace AdsChecker

/-! ## Python string basics -/

/-- Python `str.strip()` (whitespace from both ends). -/
def pyStrip (s : String) : String :=
  String.mk (((s.data.dropWhile Char.isWhitespace).reverse.dropWhile Char.isWhitespace).reverse)

/-- Python `str.lower()` (character-wise). -/
def pyLower (s : String) : String :=
  String.mk (s.data.map Char.toLower)

/-- Python truthiness of an `Optional[str]`: `None` and `""` are falsy. -/
def truthy : Option String → Bool
  | none => false
  | some s => s ≠ ""

/-- `request.field.strip() if request.field else None` from
`SimpleAdsService.check_ads`: `None` and `""` map to `None`, otherwise the
string is stripped (note `"  "` becomes `some ""`, not `none`). -/
def normField : Option String → Option String
  | none => none
  | some s => if s = "" then none else some (pyStrip s)

/-- Python `value or default` for an optional string (used by the cache-key
f-string `domain or 'none'`): falsy values are replaced by the default. -/
def pyOr (o : Option String) (d : String) : String :=
  match o with
  | none => d
  | some s => if s = "" then d else s

/-- Python `str.isdigit()`: non-empty and all digits. -/
def isDigitStr (s : String) : Bool :=
  !s.data.isEmpty && s.data.all Char.isDigit

/-- `p` occurs at the head of `s` (character-level `str.startswith`). -/
def leadsList : List Char → List Char → Bool
  | [], _ => true
  | _ :: _, [] => false
  | p :: ps, c :: cs => p = c && leadsList ps cs

/-- Index of the leftmost occurrence of `pat` in `s` (Python `str.find`). -/
def findSub (pat : List Char) : List Char → Option Nat
  | [] => if leadsList pat [] then some 0 else none
  | c :: cs =>
    if leadsList pat (c :: cs) then some 0
    else (findSub pat cs).map (· + 1)

/-- Python `pat in s`. -/
def hasSub (s pat : String) : Bool :=
  (findSub pat.data s.data).isSome

/-! ## Regex-shaped scanners

The source uses `re.search` only with patterns of a handful of fixed shapes.
Each shape is translated into a dedicated scanner on `List Char` that walks
every start position left to right, exactly as the regex engine would. -/

/-- `re.search(LIT(\d+)SUF?, s)`: at each position where `lit` occurs, capture
the maximal digit run after it; the match succeeds when the run is non-empty
and (when given) the suffix character follows the run.  On failure the scan
resumes at the next character, like the regex engine. -/
def scanLitDigits (lit : List Char) (suf : Option Char) : List Char → Option (List Char)
  | [] => none
  | c :: cs =>
    (if leadsList lit (c :: cs) then
      let rest := (c :: cs).drop lit.length
      let ds := rest.takeWhile Char.isDigit
      let after := rest.drop ds.length
      let sufOk := match suf, after with
        | none, _ => true
        | some ch, a :: _ => a = ch
        | some _, [] => false
      if !ds.isEmpty && sufOk then some ds else scanLitDigits lit suf cs
    else scanLitDigits lit suf cs)

/-- `re.search(LIT[c₁c₂](\d+), s)`: literal, then one character from a class,
then a non-empty digit run (pattern `pageID[=:](\d+)`). -/
def scanLitClassDigits (lit : List Char) (cls : List Char) : List Char → Option (List Char)
  | [] => none
  | c :: cs =>
    (if leadsList lit (c :: cs) then
      let rest := (c :: cs).drop lit.length
      match rest with
      | [] => scanLitClassDigits lit cls cs
      | m :: rest2 =>
        if cls.contains m then
          let ds := rest2.takeWhile Char.isDigit
          if !ds.isEmpty then some ds else scanLitClassDigits lit cls cs
        else scanLitClassDigits lit cls cs
    else scanLitClassDigits lit cls cs)

/-- `re.search("id":"(\d+)"[^NBRACE]*?"__typename":"Page", s)` (lower-cased
input, see `scrape_id_patterns`): a quoted digit run followed — with no
closing brace in between — by the typename marker.  The lazy `[^...]*?` gap is
realised by taking the first occurrence of the marker and requiring the gap to
be brace-free (any later occurrence only enlarges the gap). -/
def scanIdTypename : List Char → Option (List Char)
  | [] => none
  | c :: cs =>
    (if leadsList ("\"id\":\"".data) (c :: cs) then
      let rest := (c :: cs).drop 6
      let ds := rest.takeWhile Char.isDigit
      let after := rest.drop ds.length
      match after with
      | '"' :: tail =>
        if !ds.isEmpty then
          match findSub ("\"__typename\":\"page\"".data) tail with
          | some j => if (tail.take j).all (· ≠ '\x7d') then some ds else scanIdTypename cs
          | none => scanIdTypename cs
        else scanIdTypename cs
      | _ => scanIdTypename cs
    else scanIdTypename cs)

/-- `re.search(facebook\.com/([^/?]+), s)`: after the literal, a non-empty
maximal run of characters other than `/` and `?`. -/
def scanFbSlug : List Char → Option (List Char)
  | [] => none
  | c :: cs =>
    (if leadsList ("facebook.com/".data) (c :: cs) then
      let rest := (c :: cs).drop 13
      let seg := rest.takeWhile (fun ch => ch ≠ '/' && ch ≠ '?')
      if !seg.isEmpty then some seg else scanFbSlug cs
    else scanFbSlug cs)

/-- `re.search(facebook\.com/pages/[^/]+/(\d+), s)`. -/
def scanFbPages : List Char → Option (List Char)
  | [] => none
  | c :: cs =>
    (if leadsList ("facebook.com/pages/".data) (c :: cs) then
      let rest := (c :: cs).drop 19
      let seg := rest.takeWhile (· ≠ '/')
      let after := rest.drop seg.length
      match after with
      | '/' :: tail =>
        let ds := tail.takeWhile Char.isDigit
        if !seg.isEmpty && !ds.isEmpty then some ds else scanFbPages cs
      | _ => scanFbPages cs
    else scanFbPages cs)

/-- `re.search(facebook\.com/profile\.php\?id=(\d+), s)`. -/
def scanFbProfile (s : List Char) : Option (List Char) :=
  scanLitDigits ("facebook.com/profile.php?id=".data) none s

/-! ## SimpleMetaClient page-id resolution (`app/providers/meta/simple_client.py`) -/

/-- Digit-count heuristic from `_resolve_username_to_id` method 3:
`page_id.isdigit() and 8 <= len(page_id) <= 20`. -/
def validPageId (ds : List Char) : Bool :=
  !ds.isEmpty && ds.all Char.isDigit && decide (8 ≤ ds.length) && decide (ds.length ≤ 20)

/-- The `for pattern in id_patterns` loop of `_resolve_username_to_id` method 3:
take the first pattern whose (regex) candidate passes `validPageId`; a matched
but invalid candidate moves on to the next pattern. -/
def firstValid : List (Option (List Char)) → Option String
  | [] => none
  | none :: rest => firstValid rest
  | some ds :: rest => if validPageId ds then some (String.mk ds) else firstValid rest

/-- The eight `id_patterns` of `_resolve_username_to_id` method 3 applied with
`re.IGNORECASE` (the content is lower-cased before scanning; the captured
groups are digit runs, which lower-casing leaves untouched), then filtered by
the digit-count heuristic. -/
def scrape_id_patterns (content : String) : Option String :=
  let lc := content.data.map Char.toLower
  firstValid
    [ scanLitDigits ("\"page_id\":\"".data) (some '"') lc,
      scanLitDigits ("\"pageid\":\"".data) (some '"') lc,
      scanLitDigits ("\"entity_id\":\"".data) (some '"') lc,
      scanLitDigits ("profile_id=".data) none lc,
      scanLitDigits ("\"userid\":\"".data) (some '"') lc,
      scanIdTypename lc,
      scanLitClassDigits ("pageid".data) ['=', ':'] lc,
      scanLitDigits ("fb://page/".data) none lc ]

/-- Environment for `SimpleMetaClient._resolve_username_to_id`: the outcome of
each external call.  `graph_no_token u` / `graph_with_token u` is the `id`
field of a 200 Graph-API response (`none` for a non-200 response, a missing
field, or a transport error, which the source absorbs); `page_html u` is the
body of a 200 page fetch (`none` otherwise); `has_token` is
`settings.META_ACCESS_TOKEN` being non-empty. -/
structure MetaClientEnv where
  graph_no_token : String → Option String
  has_token : Bool
  graph_with_token : String → Option String
  page_html : String → Option String

/-- `SimpleMetaClient._resolve_username_to_id`: Graph API without token, then
Graph API with token (only when configured), then HTML scraping.  The two
Graph-API methods return `data.get("id")` as-is — with no digit-count
validation; only the scraping method validates. -/
def resolve_username_to_id (env : MetaClientEnv) (username : String) : Option String :=
  let m1 := env.graph_no_token username
  if truthy m1 then m1
  else
    let m2 := if env.has_token then env.graph_with_token username else none
    if truthy m2 then m2
    else
      match env.page_html username with
      | some content => scrape_id_patterns content
      | none => none

/-- The `for pattern in patterns` loop of `SimpleMetaClient.get_page_id`: for
each URL pattern in order, if it matches, return the captured group when it is
all digits (any length!), otherwise try to resolve it as a username; a falsy
resolution moves on to the next pattern. -/
def tryUrlPatterns (env : MetaClientEnv) : List (Option (List Char)) → Option String
  | [] => none
  | none :: rest => tryUrlPatterns env rest
  | some g :: rest =>
    let ident := String.mk g
    if isDigitStr ident then some ident
    else
      let r := resolve_username_to_id env ident
      if truthy r then r else tryUrlPatterns env rest

/-- `SimpleMetaClient.get_page_id`: an all-digit input is returned immediately
(no digit-count validation); otherwise, when the input mentions
`facebook.com`, the three URL patterns are tried in order. -/
def get_page_id (env : MetaClientEnv) (facebook_page : String) : Option String :=
  if isDigitStr facebook_page then some facebook_page
  else if hasSub facebook_page "facebook.com" then
    tryUrlPatterns env
      [ scanFbSlug facebook_page.data,
        scanFbPages facebook_page.data,
        scanFbProfile facebook_page.data ]
  else none

/-! ## Domain normalisation (`_clean_domain`, identical in
`DomainResolver` and `SimpleGoogleClient`) -/

/-- `urlparse(u).netloc` for the only case the source reaches it (the string
contains `://`): the text between the first `://` and the next `/`, `?` or
`#`. -/
def netlocOf (u : String) : String :=
  match findSub ("://".data) u.data with
  | none => ""
  | some i =>
    let rest := u.data.drop (i + 3)
    String.mk (rest.takeWhile (fun c => c ≠ '/' && c ≠ '?' && c ≠ '#'))

/-- `_clean_domain`: strip a protocol via `urlparse` (keeping the input when
the netloc is empty), drop a leading `www.`, lower-case and strip. -/
def clean_domain (domain : String) : String :=
  if domain = "" then ""
  else
    let d1 := if hasSub domain "://" then
        (let n := netlocOf domain; if n = "" then domain else n)
      else domain
    let d2 := if leadsList ("www.".data) d1.data then String.mk (d1.data.drop 4) else d1
    pyStrip (pyLower d2)

/-! ## Detection chains
(`SimpleMetaClient.check_ads_presence`, `SimpleGoogleClient.check_ads_presence`)

Each probe's outcome is an environment field: the probe's own `try/except`
already maps any transport or parse failure to `False` (or `None` for the
official-API probe), so the chain only sequences and short-circuits.  Beside
the boolean verdict the model returns the ordered list of probes that were
invoked, which is what the short-circuit and ordering claims are about. -/

/-- The four probes of the Meta detection chain, in source order. -/
inductive MProbe where
  | direct      -- Method 1: direct Ad Library async-search check
  | scraping    -- Method 2: Ad Library scraping
  | alternative -- Method 3: alternative Ad Library search
  | api         -- Method 4: official Graph `ads_archive` API
  deriving DecidableEq, Repr

/-- Probe outcomes for one invocation of the Meta chain.  `api = none` models
the official probe returning `None` (failure/non-200), in which case the chain
falls through to its final `return False`. -/
structure MetaDetectEnv where
  direct : Bool
  scraping : Bool
  alternative : Bool
  api : Option Bool
  has_token : Bool
  deriving DecidableEq, Repr

/-- `SimpleMetaClient.check_ads_presence`: guard against a blank page id, then
run Methods 1–3 in order, short-circuiting on the first positive; Method 4
(official API) runs only when a token is configured and all three heuristic
methods were negative, and its definite answer (`is not None`) is returned. -/
def meta_check_ads_presence (env : MetaDetectEnv) (page_id : String) : Bool × List MProbe :=
  if pyStrip page_id = "" then (false, [])
  else if env.direct then (true, [.direct])
  else if env.scraping then (true, [.direct, .scraping])
  else if env.alternative then (true, [.direct, .scraping, .alternative])
  else if env.has_token then
    match env.api with
    | some b => (b, [.direct, .scraping, .alternative, .api])
    | none => (false, [.direct, .scraping, .alternative, .api])
  else (false, [.direct, .scraping, .alternative])

/-- The three probes of the Google detection chain, in source order. -/
inductive GProbe where
  | website      -- Method 1: website Google-Ads signals
  | search       -- Method 2: Google search results ads
  | transparency -- Method 3: Ads Transparency Center
  deriving DecidableEq, Repr

/-- Probe outcomes for one invocation of the Google chain. -/
structure GoogleDetectEnv where
  website : Bool
  search : Bool
  transparency : Bool
  deriving DecidableEq, Repr

/-- `SimpleGoogleClient.check_ads_presence`: clean the domain, then run the
three probes in order, short-circuiting on the first positive. -/
def google_check_ads_presence (env : GoogleDetectEnv) (domain : String) : Bool × List GProbe :=
  let _d := clean_domain domain
  if env.website then (true, [.website])
  else if env.search then (true, [.website, .search])
  else if env.transparency then (true, [.website, .search, .transparency])
  else (false, [.website, .search, .transparency])

/-! ## DomainResolver (`app/resolvers/domain_resolver.py`) -/

/-- Outcomes of the three strategies of `DomainResolver.domain_to_facebook`,
each already folded through the strategy's internal error absorption:
`html_facebook d` is the page found by fetching the site and scanning its
markup, `google_search d` the page found via a web search, `pattern_guess d`
the page found by probing well-known handle patterns (`none` = miss). -/
structure DomainResolverEnv where
  html_facebook : String → Option String
  google_search : String → Option String
  pattern_guess : String → Option String
  /-- Outcome of `DomainResolver.facebook_to_domain` (fetch the page, extract
  the first external domain); unused by the service but part of the class. -/
  facebook_to_domain : String → Option String

/-- `DomainResolver.domain_to_facebook`: clean the domain, then site-HTML
extraction, then web search, then pattern guessing, short-circuiting on the
first truthy result. -/
def domain_to_facebook (env : DomainResolverEnv) (domain : String) : Option String :=
  let d := clean_domain domain
  if d = "" then none
  else
    let m1 := env.html_facebook d
    if truthy m1 then m1
    else
      let m2 := env.google_search d
      if truthy m2 then m2
      else
        let m3 := env.pattern_guess d
        if truthy m3 then m3 else none

/-! ## The pipeline environment -/

/-- One entry per external call the service can make; used only to count
"rounds of network calls" in the idempotence and no-network claims.
`findFacebookPage` never occurs in any trace: the attribute lookup fails
before a request could be issued (see `callDomainResolver`). -/
inductive NetOp where
  | findFacebookPage -- DomainResolver.find_facebook_page (never issued)
  | findWebsite      -- FacebookResolver.find_website_from_page
  | extractPageId    -- FacebookResolver.extract_page_id
  | metaGetPageId    -- SimpleMetaClient.get_page_id
  | metaDetect       -- SimpleMetaClient.check_ads_presence
  | googleDetect     -- SimpleGoogleClient.check_ads_presence
  deriving DecidableEq, Repr

/-- Environment of one `SimpleAdsService` call: the outcome every external
collaborator would produce, plus optional injected faults modelling an
unexpected exception escaping a whole step of `check_ads` (the event its
`try/except Exception` is there to catch). -/
structure PipelineEnv where
  /-- Strategy outcomes backing `DomainResolver.domain_to_facebook`. -/
  resolverEnv : DomainResolverEnv
  /-- `FacebookResolver.find_website_from_page` outcome (internally absorbed). -/
  find_website_from_page : String → Option String
  /-- `FacebookResolver.extract_page_id` outcome (internally absorbed). -/
  extract_page_id : String → Option String
  /-- Environment of the `SimpleMetaClient` page-id resolution. -/
  metaClient : MetaClientEnv
  /-- Per-target probe outcomes of the Meta detection chain. -/
  metaDetectEnv : String → MetaDetectEnv
  /-- Per-target probe outcomes of the Google detection chain. -/
  googleDetectEnv : String → GoogleDetectEnv
  /-- An exception escaping step 1 (`_resolve_identities`). -/
  resolveFault : Option String
  /-- An exception escaping step 2 (`_check_ads_parallel`). -/
  detectFault : Option String
  /-- An exception escaping step 3 (response assembly). -/
  assembleFault : Option String

/-- The callable resolution methods `DomainResolver` actually defines, as a
name-indexed table: Python method dispatch on the instance is a lookup here.
The class defines `domain_to_facebook` and `facebook_to_domain` — and no
`find_facebook_page`. -/
def domainResolverTable (env : PipelineEnv) : List (String × (String → Option String)) :=
  [ ("domain_to_facebook", domain_to_facebook env.resolverEnv),
    ("facebook_to_domain", env.resolverEnv.facebook_to_domain) ]

/-- Python attribute access plus call on the `DomainResolver` instance: a
missing method name raises `AttributeError` before any network traffic. -/
def callDomainResolver (env : PipelineEnv) (method : String) (arg : String) :
    Except String (Option String) :=
  match (domainResolverTable env).lookup method with
  | some f => Except.ok (f arg)
  | none => Except.error ("AttributeError: DomainResolver object has no attribute " ++ method)

/-! ## Response schema and cache (`app/schemas/simple.py`, `app/services/cache_service.py`) -/

/-- `CheckResponse` with its pydantic field defaults. -/
structure CheckResponse where
  domain : Option String := none
  facebook_page : Option String := none
  meta_page_id : Option String := none
  has_meta_ads : Bool := false
  has_google_ads : Bool := false
  success : Bool := true
  message : Option String := none
  deriving DecidableEq, Repr

/-- `CheckRequest`. -/
structure CheckRequest where
  domain : Option String
  facebook_page : Option String
  deriving DecidableEq, Repr

/-- The `CacheService` state: an association list, most recent entry first
(so an insert with an existing key shadows it, like `TTLCache.__setitem__`).
Time is not modelled: an entry being present means its time-to-live has not
expired.  The JSON round trip of `cache.set`/`cache.get` is the identity on
`model_dump()` of a `CheckResponse` (all fields are JSON-safe strings,
booleans or nulls), so values are stored directly. -/
def CacheState : Type := List (String × CheckResponse)

/-- `cache.get(key)`: first entry with the key, `None` on a miss; a cached
`model_dump()` dict is never empty, hence always truthy at the call site. -/
def cacheGet : CacheState → String → Option CheckResponse
  | [], _ => none
  | (k, v) :: rest, key => if key = k then some v else cacheGet rest key

/-- `cache.set(key, value, ttl)`. -/
def cacheSet (c : CacheState) (key : String) (v : CheckResponse) : CacheState :=
  (key, v) :: c

/-! ## SimpleAdsService (`app/services/simple_service.py`) -/

/-- The cache key built in `check_ads`:
`f"check:[domain or 'none']:[facebook_page or 'none']"`, applied to the
already-normalised (stripped, empty-to-None) fields. -/
def cache_key_of (domain facebook_page : Option String) : String :=
  "check:" ++ pyOr domain "none" ++ ":" ++ pyOr facebook_page "none"

/-- The fingerprint of a raw request: `check_ads` normalises the raw fields
and builds the cache key from them, before any resolution. -/
def fingerprint (req : CheckRequest) : String :=
  cache_key_of (normField req.domain) (normField req.facebook_page)

/-- `SimpleAdsService._resolve_identities`.  Returns the resolved
`(domain, facebook_page, meta_page_id)` plus the external calls made.

The first block runs `self.domain_resolver.find_facebook_page(domain)` inside
a `try/except`: the attribute lookup fails (`DomainResolver` defines no such
method), the `AttributeError` is swallowed, and no call is issued — so
`facebook_page` keeps its input value whenever it was missing. -/
def resolve_identities (env : PipelineEnv) (input_domain input_facebook_page : Option String) :
    Option String × Option String × Option String × List NetOp :=
  let domain := input_domain
  let facebook_page := input_facebook_page
  -- if domain and not facebook_page: resolve Facebook page from domain
  let step1 : Option String × List NetOp :=
    if truthy domain && !truthy facebook_page then
      match callDomainResolver env "find_facebook_page" (domain.getD "") with
      | Except.ok r => (if truthy r then r else facebook_page, [NetOp.findFacebookPage])
      | Except.error _ => (facebook_page, []) -- AttributeError caught; nothing sent
    else (facebook_page, [])
  let facebook_page := step1.1
  -- if facebook_page and not domain: resolve domain from Facebook page
  let step2 : Option String × List NetOp :=
    if truthy facebook_page && !truthy domain then
      let r := env.find_website_from_page (facebook_page.getD "")
      (if truthy r then r else domain, [NetOp.findWebsite])
    else (domain, [])
  let domain := step2.1
  -- if facebook_page: extract Meta page ID (resolver first, Meta client fallback)
  let step3 : Option String × List NetOp :=
    if truthy facebook_page then
      let r1 := env.extract_page_id (facebook_page.getD "")
      if !truthy r1 then
        (get_page_id env.metaClient (facebook_page.getD ""),
          [NetOp.extractPageId, NetOp.metaGetPageId])
      else (r1, [NetOp.extractPageId])
    else (none, [])
  (domain, facebook_page, step3.1, step1.2 ++ step2.2 ++ step3.2)

/-- `SimpleAdsService._check_ads_parallel`: the Meta check runs only when a
page id is truthy, the Google check only when a domain is truthy; a missing
identifier contributes `_return_false()` — deterministically `False` with no
call.  `asyncio.gather` keeps the task order, so the pair is (meta, google). -/
def check_ads_parallel (env : PipelineEnv) (domain meta_page_id : Option String) :
    Bool × Bool × List NetOp :=
  let metaPart : Bool × List NetOp :=
    if truthy meta_page_id then
      let pid := meta_page_id.getD ""
      ((meta_check_ads_presence (env.metaDetectEnv pid) pid).1, [NetOp.metaDetect])
    else (false, [])
  let googlePart : Bool × List NetOp :=
    if truthy domain then
      let d := domain.getD ""
      ((google_check_ads_presence (env.googleDetectEnv d) d).1, [NetOp.googleDetect])
    else (false, [])
  (metaPart.1, googlePart.1, metaPart.2 ++ googlePart.2)

/-- `SimpleAdsService._create_success_message`. -/
def create_success_message (domain facebook_page : Option String)
    (has_meta_ads has_google_ads : Bool) : String :=
  let parts1 : List String :=
    if truthy domain && truthy facebook_page then ["Resolved both domain and Facebook page"]
    else if truthy domain then ["Domain provided"]
    else if truthy facebook_page then ["Facebook page provided"]
    else []
  let ads_status : List String :=
    (if has_meta_ads then ["Meta ads detected"] else [])
      ++ (if has_google_ads then ["Google ads detected"] else [])
  let parts2 : List String :=
    if !ads_status.isEmpty then ["Active ads found: " ++ String.intercalate ", " ads_status]
    else ["No active ads detected"]
  String.intercalate ". " (parts1 ++ parts2)

/-- The `except Exception` branch of `check_ads`: a response carrying the
identifiers as of the raise point, `success=False` and the error message. -/
def errorResponse (domain facebook_page : Option String) (e : String) : CheckResponse :=
  { domain := domain, facebook_page := facebook_page,
    success := false, message := some ("Error during check: " ++ e) }

/-- `SimpleAdsService.check_ads`: validate (empty strings are absent), build
the cache key from the raw normalised input, return a cached result
unchanged on a hit, otherwise resolve identities, run both detections, build
the success response and cache it; any exception escaping a step yields an
error response and leaves the cache untouched.  Returns the response, the
cache state after the call, and the external calls made. -/
def check_ads (env : PipelineEnv) (cache : CacheState) (request : CheckRequest) :
    CheckResponse × CacheState × List NetOp :=
  let domain := normField request.domain
  let facebook_page := normField request.facebook_page
  if !truthy domain && !truthy facebook_page then
    ({ success := false, message := some "Either domain or facebook_page must be provided" },
      cache, [])
  else
    let cache_key := cache_key_of domain facebook_page
    match cacheGet cache cache_key with
    | some cached => (cached, cache, [])
    | none =>
      match env.resolveFault with
      | some e => (errorResponse domain facebook_page e, cache, [])
      | none =>
        let resolved := resolve_identities env domain facebook_page
        let domain2 := resolved.1
        let facebook_page2 := resolved.2.1
        let meta_page_id := resolved.2.2.1
        let ops1 := resolved.2.2.2
        match env.detectFault with
        | some e => (errorResponse domain2 facebook_page2 e, cache, ops1)
        | none =>
          let detected := check_ads_parallel env domain2 meta_page_id
          let ops2 := detected.2.2
          match env.assembleFault with
          | some e => (errorResponse domain2 facebook_page2 e, cache, ops1 ++ ops2)
          | none =>
            let response : CheckResponse :=
              { domain := domain2, facebook_page := facebook_page2,
                meta_page_id := meta_page_id,
                has_meta_ads := detected.1, has_google_ads := detected.2.1,
                success := true,
                message := some (create_success_message domain2 facebook_page2
                  detected.1 detected.2.1) }
            (response, cacheSet cache cache_key response, ops1 ++ ops2)

/-! ## HTTP front door (`app/api/v1/endpoints/simple.py`) -/

/-- `fastapi.HTTPException` (status code and detail). -/
structure HTTPException where
  status_code : Nat
  detail : String
  deriving DecidableEq, Repr

/-- `str(e)` for a Starlette `HTTPException`: `f"[status_code]: [detail]"`. -/
def httpExceptionStr (e : HTTPException) : String :=
  toString e.status_code ++ ": " ++ e.detail

/-- `get_ads_service`: the dependency constructs a brand-new
`SimpleAdsService` — and with it a brand-new empty in-memory `CacheService` —
for every request. -/
def front_door_check (env : PipelineEnv) (req : CheckRequest) :
    CheckResponse × CacheState × List NetOp :=
  check_ads env ([] : CacheState) req

/-- The body of the `check_ads` endpoint inside its `try`: call the service;
on `success == False` raise `HTTPException(400, result.message)`. -/
def check_ads_endpoint_body (env : PipelineEnv) (req : CheckRequest) :
    Except HTTPException CheckResponse :=
  let result := (front_door_check env req).1
  if result.success = false then
    Except.error { status_code := 400, detail := result.message.getD "None" }
  else Except.ok result

/-- The `check_ads` endpoint: the `except Exception` clause catches every
exception raised in the `try` — including the `HTTPException(400)` the body
itself raised, since `HTTPException` subclasses `Exception` — and re-raises
`HTTPException(500, f"Internal server error: [str(e)]")`. -/
def check_ads_endpoint (env : PipelineEnv) (req : CheckRequest) :
    Except HTTPException CheckResponse :=
  match check_ads_endpoint_body env req with
  | Except.ok r => Except.ok r
  | Except.error e =>
    Except.error { status_code := 500, detail := "Internal server error: " ++ httpExceptionStr e }

/-! ## Derived quantities and concrete environments used by the theorems -/

/-- The invariant of §3 of the design: a flag is `true` only when its
required identifier is present (truthy) in the response. -/
def flagsOk (r : CheckResponse) : Bool :=
  (truthy r.meta_page_id || !r.has_meta_ads) && (truthy r.domain || !r.has_google_ads)

/-- The first injected fault `check_ads` would hit, in step order. -/
def firstFault (env : PipelineEnv) : Option String :=
  match env.resolveFault with
  | some e => some e
  | none =>
    match env.detectFault with
    | some e => some e
    | none => env.assembleFault

/-- A Meta client whose every external call misses. -/
def noMetaClient : MetaClientEnv :=
  { graph_no_token := fun _ => none, has_token := false,
    graph_with_token := fun _ => none, page_html := fun _ => none }

/-- A Meta detection environment in which every probe is negative. -/
def noMetaDetect : MetaDetectEnv :=
  { direct := false, scraping := false, alternative := false, api := none, has_token := false }

/-- A Google detection environment in which every probe is negative. -/
def noGoogleDetect : GoogleDetectEnv :=
  { website := false, search := false, transparency := false }

/-- A domain resolver environment in which every strategy misses. -/
def noResolver : DomainResolverEnv :=
  { html_facebook := fun _ => none, google_search := fun _ => none,
    pattern_guess := fun _ => none, facebook_to_domain := fun _ => none }

/-- A pipeline environment in which every external call misses or is negative
and no step faults. -/
def envNone : PipelineEnv :=
  { resolverEnv := noResolver
    find_website_from_page := fun _ => none
    extract_page_id := fun _ => none
    metaClient := noMetaClient
    metaDetectEnv := fun _ => noMetaDetect
    googleDetectEnv := fun _ => noGoogleDetect
    resolveFault := none, detectFault := none, assembleFault := none }

/-- A resolver environment whose site-HTML strategy finds the Facebook page
of `nike.com` — the first strategy of the chain succeeds. -/
def nikeResolverEnv : DomainResolverEnv :=
  { noResolver with
    html_facebook := fun d => if d = "nike.com" then some "https://www.facebook.com/nike" else none }

/-- `envNone` with the nike.com resolver environment plugged in. -/
def envNike : PipelineEnv := { envNone with resolverEnv := nikeResolverEnv }

/-- `envNone` with an exception escaping the resolution step. -/
def envFault : PipelineEnv := { envNone with resolveFault := some "boom" }

/-- A Meta client whose unauthenticated Graph-API lookup answers with the id
`99` for every username (a 2-digit candidate, far below the 8-digit floor). -/
def envGraph99 : MetaClientEnv :=
  { noMetaClient with graph_no_token := fun _ => some "99" }

/-- A Meta detection environment with credentials configured, the heuristic
probes negative and the official API positive. -/
def metaApiOnlyEnv : MetaDetectEnv :=
  { direct := false, scraping := false, alternative := false, api := some true, has_token := true }

/-- One field of the normalisation the fingerprint actually performs, written
from the amended claim wording for comparison with the implementation:
trimmed, with a `none` placeholder for an absent (missing or
whitespace-only) field — and no lower-casing. -/
def spec_fingerprint_field : Option String → String
  | none => "none"
  | some s => if pyStrip s = "" then "none" else pyStrip s

/-- The amended fingerprint, written from the amended claim wording. -/
def spec_fingerprint (req : CheckRequest) : String :=
  "check:" ++ spec_fingerprint_field req.domain ++ ":" ++ spec_fingerprint_field req.facebook_page

/-! ## Helper lemmas -/

/-- The fingerprint field normalisation, expressed pointwise. -/
theorem pyOr_normField (o : Option String) :
    pyOr (normField o) "none" = spec_fingerprint_field o := by
  cases o with
  | none => rfl
  | some s =>
    by_cases hs : s = ""
    · subst hs; rfl
    · simp [normField, pyOr, spec_fingerprint_field, hs]

/-- Without a truthy page id, `_check_ads_parallel` reports no Meta ads and
never calls the Meta detection chain. -/
theorem parallel_meta_absent (env : PipelineEnv) (d pid : Option String)
    (h : truthy pid = false) :
    (check_ads_parallel env d pid).1 = false
    ∧ NetOp.metaDetect ∉ (check_ads_parallel env d pid).2.2 := by
  unfold check_ads_parallel
  rw [h]
  constructor
  · simp
  · by_cases hd : truthy d <;> simp [hd]

/-- Without a truthy domain, `_check_ads_parallel` reports no Google ads and
never calls the Google detection chain. -/
theorem parallel_google_absent (env : PipelineEnv) (d pid : Option String)
    (h : truthy d = false) :
    (check_ads_parallel env d pid).2.1 = false
    ∧ NetOp.googleDetect ∉ (check_ads_parallel env d pid).2.2 := by
  unfold check_ads_parallel
  rw [h]
  constructor
  · simp
  · by_cases hp : truthy pid <;> simp [hp]

/-- A response assembled from `_check_ads_parallel` satisfies the flag
invariant, whatever the environment decides. -/
theorem flagsOk_parallel (env : PipelineEnv) (d2 pid fb : Option String) (msg : String) :
    flagsOk
      { domain := d2, facebook_page := fb, meta_page_id := pid,
        has_meta_ads := (check_ads_parallel env d2 pid).1,
        has_google_ads := (check_ads_parallel env d2 pid).2.1,
        success := true, message := some msg } = true := by
  simp only [flagsOk]
  by_cases hp : truthy pid = true
  · by_cases hd : truthy d2 = true
    · simp [hp, hd]
    · have hg := (parallel_google_absent env d2 pid (by simpa using hd)).1
      simp [hp, hg]
  · have hm := (parallel_meta_absent env d2 pid (by simpa using hp)).1
    by_cases hd : truthy d2 = true
    · simp [hd, hm]
    · have hg := (parallel_google_absent env d2 pid (by simpa using hd)).1
      simp [hm, hg]

/-- Every candidate `firstValid` lets through passes the digit-count
heuristic. -/
theorem firstValid_valid (l : List (Option (List Char))) (s : String)
    (h : firstValid l = some s) : validPageId s.data = true := by
  induction l with
  | nil => simp [firstValid] at h
  | cons o rest ih =>
    match o with
    | none => exact ih (by simpa [firstValid] using h)
    | some ds =>
      by_cases hv : validPageId ds = true
      · simp [firstValid, hv] at h
        subst h
        simpa using hv
      · simp [firstValid, hv] at h
        exact ih h

/-! ## C9 — invalid input: no network, explanatory failure -/

/-- C9: when both identifiers are absent after trimming (empty strings
treated as absent), `check_ads` returns the invalid outcome — `success =
False` with an explanatory message — leaving the cache untouched and making
no external call. -/
theorem c9_invalid_input_no_network (env : PipelineEnv) (cache : CacheState)
    (req : CheckRequest)
    (hd : truthy (normField req.domain) = false)
    (hf : truthy (normField req.facebook_page) = false) :
    check_ads env cache req =
      ({ success := false, message := some "Either domain or facebook_page must be provided" },
        cache, ([] : List NetOp)) := by
  simp [check_ads, hd, hf]

/-- C9 witness: the request `domain="   "`, `facebook_page=""` is rejected
without any call, on a concrete environment. -/
theorem c9_witness :
    truthy (normField (some "   ")) = false
    ∧ truthy (normField (some "")) = false
    ∧ check_ads envNone ([] : CacheState) ⟨some "   ", some ""⟩ =
      ({ success := false, message := some "Either domain or facebook_page must be provided" },
        ([] : CacheState), ([] : List NetOp)) :=
  ⟨by decide, by decide,
    c9_invalid_input_no_network envNone ([] : CacheState) ⟨some "   ", some ""⟩
      (by decide) (by decide)⟩

/-! ## C3 — the front door turns the invalid-input 400 into a 500 -/

/-- C3 (code bug): for the request with both identifiers absent the service
returns `success = False`, the endpoint raises `HTTPException(400, ...)` —
and its own `except Exception` catches that very exception and re-raises it
as a 500.  The client therefore receives a server error, not the 4xx the
specification (and the `raise HTTPException(status_code=400)` line itself)
intends. -/
theorem c3_invalid_input_returns_500 :
    check_ads_endpoint envNone ⟨none, none⟩ =
      Except.error
        { status_code := 500,
          detail := "Internal server error: 400: Either domain or facebook_page must be provided" }
    ∧ ¬ (400 ≤ 500 ∧ 500 < 500) :=
  ⟨rfl, by decide⟩

/-! ## C2 — the domain-to-social resolution chain is never invoked -/

/-- C2 (code bug): `_resolve_identities` calls
`self.domain_resolver.find_facebook_page(domain)`, but `DomainResolver`
defines no such method — only `domain_to_facebook`.  The `AttributeError` is
swallowed by the surrounding `except`, so even in an environment where the
chain's first strategy finds the Facebook page of `nike.com`, the pipeline
returns `facebook_page = None` (and reports overall success). -/
theorem c2_resolution_chain_never_invoked :
    domain_to_facebook nikeResolverEnv "nike.com" = some "https://www.facebook.com/nike"
    ∧ (domainResolverTable envNike).lookup "find_facebook_page" = none
    ∧ (resolve_identities envNike (some "nike.com") none).2.1 = none
    ∧ (check_ads envNike ([] : CacheState) ⟨some "nike.com", none⟩).1.facebook_page = none
    ∧ (check_ads envNike ([] : CacheState) ⟨some "nike.com", none⟩).1.success = true :=
  ⟨rfl, rfl, rfl, rfl, rfl⟩

/-! ## C4 — the per-request service instance defeats the cache -/

/-- C4 (code bug): `get_ads_service` constructs a fresh `SimpleAdsService`
(hence a fresh, empty in-memory cache) for every request, so a second
identical request repeats the detection call instead of hitting the cache:
both front-door invocations issue the Google detection call.  Had the first
call's cache survived (third conjunct), the second call would have returned
the cached response unchanged with no calls at all — which is what the claim
describes. -/
theorem c4_front_door_cache_never_hits :
    (front_door_check envNike ⟨some "nike.com", none⟩).2.2 = [NetOp.googleDetect]
    ∧ ([NetOp.googleDetect] : List NetOp) ≠ []
    ∧ check_ads envNike (front_door_check envNike ⟨some "nike.com", none⟩).2.1
        ⟨some "nike.com", none⟩ =
      ((front_door_check envNike ⟨some "nike.com", none⟩).1,
        (front_door_check envNike ⟨some "nike.com", none⟩).2.1, ([] : List NetOp)) :=
  ⟨rfl, by decide, rfl⟩

/-! ## C5 — the fingerprint is trimmed and placeholdered, but not lower-cased -/

/-- C5 counterexample: two raw inputs differing only in letter case receive
different fingerprints — the cache key is built from the field verbatim
(after stripping), with no lower-casing. -/
theorem c5_counterexample :
    fingerprint ⟨some "Nike.com", none⟩ = "check:Nike.com:none"
    ∧ fingerprint ⟨some "nike.com", none⟩ = "check:nike.com:none"
    ∧ fingerprint ⟨some "Nike.com", none⟩ ≠ fingerprint ⟨some "nike.com", none⟩ :=
  ⟨rfl, rfl, by decide⟩

/-- C5 amended: the fingerprint is a deterministic normalisation of the raw
pre-resolution input — each field trimmed, with a `none` placeholder when the
field is missing or whitespace-only — but without lower-casing. -/
theorem c5_fingerprint_normalization (req : CheckRequest) :
    fingerprint req = spec_fingerprint req := by
  rcases req with ⟨d, f⟩
  simp [fingerprint, spec_fingerprint, cache_key_of, pyOr_normField]

/-! ## C6 — digit-count validation is not applied by every strategy -/

/-- C6 counterexample: the already-numeric fast path of
`SimpleMetaClient.get_page_id` returns `"123"` — a 3-digit candidate — to the
caller, although the digit-count heuristic (8–20 digits) rejects it. -/
theorem c6_counterexample :
    get_page_id noMetaClient "123" = some "123"
    ∧ validPageId "123".data = false
    ∧ ¬ (8 ≤ "123".data.length) :=
  ⟨rfl, by decide, by decide⟩

/-- C6 amended: the 8–20-digit validation is applied by the HTML-scraping
strategy, but not by the already-numeric fast path of `get_page_id` nor by
the Graph-API directory lookups of `_resolve_username_to_id`, which return
their candidate as-is. -/
theorem c6_validation_only_in_scraping (env : MetaClientEnv) (s u id content : String)
    (h1 : isDigitStr s = true)
    (h2 : truthy (env.graph_no_token u) = true)
    (h3 : scrape_id_patterns content = some id) :
    get_page_id env s = some s
    ∧ resolve_username_to_id env u = env.graph_no_token u
    ∧ (isDigitStr id = true ∧ 8 ≤ id.data.length ∧ id.data.length ≤ 20) := by
  refine ⟨?_, ?_, ?_⟩
  · simp [get_page_id, h1]
  · simp [resolve_username_to_id, h2]
  · have hv : validPageId id.data = true := firstValid_valid _ _ h3
    simp only [validPageId, isDigitStr, Bool.and_assoc, Bool.and_eq_true,
      decide_eq_true_eq] at hv ⊢
    exact ⟨⟨hv.1, hv.2.1⟩, hv.2.2.1, hv.2.2.2⟩

/-- C6 witness: a concrete graph-lookup environment returns the 2-digit id
`99` unvalidated, while scraping a concrete markup snippet returns only the
validated 11-digit id. -/
theorem c6_witness :
    isDigitStr "123" = true
    ∧ truthy (envGraph99.graph_no_token "nike") = true
    ∧ scrape_id_patterns "\"page_id\":\"12345678901\"" = some "12345678901"
    ∧ (get_page_id envGraph99 "123" = some "123"
        ∧ resolve_username_to_id envGraph99 "nike" = envGraph99.graph_no_token "nike"
        ∧ (isDigitStr "12345678901" = true
            ∧ 8 ≤ "12345678901".data.length ∧ "12345678901".data.length ≤ 20)) :=
  ⟨by decide, by decide, by decide,
    c6_validation_only_in_scraping envGraph99 "123" "nike" "12345678901"
      "\"page_id\":\"12345678901\"" (by decide) (by decide) (by decide)⟩

/-! ## C7 — strict probe order and short-circuit on first positive -/

/-- C7: in both detection chains the probes are evaluated strictly in their
configured order, and the first positive probe produces the positive verdict
with no subsequent probe invoked (the invocation trace stops at it). -/
theorem c7_chain_short_circuit (eM : MetaDetectEnv) (eG : GoogleDetectEnv)
    (pid d : String) (h : pyStrip pid ≠ "") :
    (eM.direct = true → meta_check_ads_presence eM pid = (true, [.direct]))
    ∧ (eM.direct = false → eM.scraping = true →
        meta_check_ads_presence eM pid = (true, [.direct, .scraping]))
    ∧ (eM.direct = false → eM.scraping = false → eM.alternative = true →
        meta_check_ads_presence eM pid = (true, [.direct, .scraping, .alternative]))
    ∧ (eM.direct = false → eM.scraping = false → eM.alternative = false →
        eM.has_token = true → eM.api = some true →
        meta_check_ads_presence eM pid = (true, [.direct, .scraping, .alternative, .api]))
    ∧ (eG.website = true → google_check_ads_presence eG d = (true, [.website]))
    ∧ (eG.website = false → eG.search = true →
        google_check_ads_presence eG d = (true, [.website, .search]))
    ∧ (eG.website = false → eG.search = false → eG.transparency = true →
        google_check_ads_presence eG d = (true, [.website, .search, .transparency])) := by
  refine ⟨?_, ?_, ?_, ?_, ?_, ?_, ?_⟩ <;> intros <;>
    simp_all [meta_check_ads_presence, google_check_ads_presence]

/-- C7 witness: with the first Meta probe negative and the second positive,
the chain stops right after the second probe; the positive first Google probe
stops that chain immediately. -/
theorem c7_witness :
    pyStrip "123" ≠ ""
    ∧ meta_check_ads_presence ⟨false, true, false, none, false⟩ "123" =
        (true, [.direct, .scraping])
    ∧ google_check_ads_presence ⟨true, false, false⟩ "nike.com" = (true, [.website]) :=
  ⟨by decide,
    (c7_chain_short_circuit ⟨false, true, false, none, false⟩ ⟨true, false, false⟩
        "123" "nike.com" (by decide)).2.1 rfl rfl,
    (c7_chain_short_circuit ⟨false, true, false, none, false⟩ ⟨true, false, false⟩
        "123" "nike.com" (by decide)).2.2.2.2.1 rfl⟩

/-! ## C8 — the official-API probe runs last, not first -/

/-- C8 counterexample: with credentials configured and every heuristic probe
negative, the Meta chain invokes the official-API probe only in fourth
position — after all three heuristic content-scraping probes — refuting the
claim that it is evaluated before every heuristic probe. -/
theorem c8_counterexample :
    (meta_check_ads_presence metaApiOnlyEnv "12345678").2 =
      [.direct, .scraping, .alternative, .api]
    ∧ (meta_check_ads_presence metaApiOnlyEnv "12345678").2.take 3 =
      [.direct, .scraping, .alternative]
    ∧ (meta_check_ads_presence metaApiOnlyEnv "12345678").1 = true :=
  ⟨rfl, rfl, rfl⟩

/-- C8 amended: in the Meta detection chain the official-API probe (which
requires configured credentials) is evaluated last: whenever it is invoked at
all, all three heuristic content-scraping probes were invoked before it and
reported negative. -/
theorem c8_api_probe_runs_last (eM : MetaDetectEnv) (pid : String)
    (h : MProbe.api ∈ (meta_check_ads_presence eM pid).2) :
    (meta_check_ads_presence eM pid).2 = [.direct, .scraping, .alternative, .api]
    ∧ eM.direct = false ∧ eM.scraping = false ∧ eM.alternative = false
    ∧ eM.has_token = true := by
  by_cases hp : pyStrip pid = ""
  · simp [meta_check_ads_presence, hp] at h
  · rcases eM with ⟨dir, scr, alt, api, tok⟩
    cases dir <;> cases scr <;> cases alt <;> cases tok <;>
      cases api <;> simp_all [meta_check_ads_presence, hp]

/-- C8 witness: the amended statement at the concrete environment of the
counterexample. -/
theorem c8_witness :
    MProbe.api ∈ (meta_check_ads_presence metaApiOnlyEnv "12345678").2
    ∧ ((meta_check_ads_presence metaApiOnlyEnv "12345678").2 =
        [.direct, .scraping, .alternative, .api]
      ∧ metaApiOnlyEnv.direct = false ∧ metaApiOnlyEnv.scraping = false
      ∧ metaApiOnlyEnv.alternative = false ∧ metaApiOnlyEnv.has_token = true) :=
  ⟨by decide, c8_api_probe_runs_last metaApiOnlyEnv "12345678" (by decide)⟩

/-! ## C10 — an escaping exception yields a failure response, cache untouched -/

/-- C10: on a valid, uncached request, if an exception escapes the
resolution, detection or assembly step, `check_ads` returns `success =
False` with a message naming the error, and the cache is left exactly as it
was — no entry is written for the request fingerprint. -/
theorem c10_error_path_cache_unchanged (env : PipelineEnv) (cache : CacheState)
    (req : CheckRequest) (e : String)
    (hv : truthy (normField req.domain) = true ∨ truthy (normField req.facebook_page) = true)
    (hm : cacheGet cache (fingerprint req) = none)
    (hf : firstFault env = some e) :
    (check_ads env cache req).1.success = false
    ∧ (check_ads env cache req).1.message = some ("Error during check: " ++ e)
    ∧ (check_ads env cache req).2.1 = cache := by
  have hvalid : (!truthy (normField req.domain) && !truthy (normField req.facebook_page)) = false := by
    rcases hv with hv | hv <;> simp [hv]
  have hm' : cacheGet cache (cache_key_of (normField req.domain) (normField req.facebook_page)) = none := hm
  rcases h1 : env.resolveFault with _ | e1
  · rcases h2 : env.detectFault with _ | e2
    · have h3 : env.assembleFault = some e := by
        simpa [firstFault, h1, h2] using hf
      simp [check_ads, hvalid, hm', h1, h2, h3, errorResponse]
    · have he : e2 = e := by
        simpa [firstFault, h1, h2] using hf
      subst he
      simp [check_ads, hvalid, hm', h1, h2, errorResponse]
  · have he : e1 = e := by
      simpa [firstFault, h1] using hf
    subst he
    simp [check_ads, hvalid, hm', h1, errorResponse]

/-- C10 witness: a fault escaping the resolution step on the concrete request
`domain="x"` with an empty cache. -/
theorem c10_witness :
    (truthy (normField (some "x")) = true ∨ truthy (normField none) = true)
    ∧ cacheGet ([] : CacheState) (fingerprint ⟨some "x", none⟩) = none
    ∧ firstFault envFault = some "boom"
    ∧ ((check_ads envFault ([] : CacheState) ⟨some "x", none⟩).1.success = false
        ∧ (check_ads envFault ([] : CacheState) ⟨some "x", none⟩).1.message =
          some ("Error during check: " ++ "boom")
        ∧ (check_ads envFault ([] : CacheState) ⟨some "x", none⟩).2.1 = ([] : CacheState)) :=
  ⟨Or.inl (by decide), rfl, rfl,
    c10_error_path_cache_unchanged envFault ([] : CacheState) ⟨some "x", none⟩ "boom"
      (Or.inl (by decide)) rfl rfl⟩

/-! ## C1 — flags are false without their identifier; detection not attempted -/

/-- C1: provided every cached response already satisfies the flag invariant,
the response `check_ads` returns satisfies it too: `has_meta_ads` is `False`
whenever the resolved Meta page id is absent, and `has_google_ads` is `False`
whenever the domain is absent.  Moreover detection for a platform is never
attempted without its identifier: with no truthy page id (resp. domain),
`_check_ads_parallel` reports `False` for that platform deterministically and
its detection chain is never called. -/
theorem c1_flags_require_identifiers (env : PipelineEnv) (cache : CacheState)
    (req : CheckRequest) (d pid : Option String)
    (hc : ∀ k r, cacheGet cache k = some r → flagsOk r = true) :
    flagsOk (check_ads env cache req).1 = true
    ∧ (truthy pid = false →
        (check_ads_parallel env d pid).1 = false
        ∧ NetOp.metaDetect ∉ (check_ads_parallel env d pid).2.2)
    ∧ (truthy d = false →
        (check_ads_parallel env d pid).2.1 = false
        ∧ NetOp.googleDetect ∉ (check_ads_parallel env d pid).2.2) := by
  refine ⟨?_, fun h => parallel_meta_absent env d pid h,
    fun h => parallel_google_absent env d pid h⟩
  by_cases hvalid :
      (!truthy (normField req.domain) && !truthy (normField req.facebook_page)) = true
  · simp [check_ads, hvalid, flagsOk]
  · have hvalid2 :
        (!truthy (normField req.domain) && !truthy (normField req.facebook_page)) = false := by
      simpa using hvalid
    rcases hget :
        cacheGet cache (cache_key_of (normField req.domain) (normField req.facebook_page))
      with _ | cached
    · rcases h1 : env.resolveFault with _ | e1
      · rcases h2 : env.detectFault with _ | e2
        · rcases h3 : env.assembleFault with _ | e3
          · simp [check_ads, hvalid2, hget, h1, h2, h3, flagsOk_parallel]
          · simp [check_ads, hvalid2, hget, h1, h2, h3, errorResponse, flagsOk]
        · simp [check_ads, hvalid2, hget, h1, h2, errorResponse, flagsOk]
      · simp [check_ads, hvalid2, hget, h1, errorResponse, flagsOk]
    · have hcached := hc _ cached hget
      simp [check_ads, hvalid2, hget, hcached]

/-- C1 witness: the invariant holds for a concrete request against the empty
cache, and with neither identifier truthy both detections are skipped. -/
theorem c1_witness :
    (∀ k r, cacheGet ([] : CacheState) k = some r → flagsOk r = true)
    ∧ flagsOk (check_ads envNone ([] : CacheState) ⟨some "x", none⟩).1 = true
    ∧ (check_ads_parallel envNone none none).1 = false
    ∧ (check_ads_parallel envNone none none).2.1 = false :=
  ⟨fun k r h => by simp [cacheGet] at h,
    (c1_flags_require_identifiers envNone ([] : CacheState) ⟨some "x", none⟩ none none
      (fun k r h => by simp [cacheGet] at h)).1,
    ((c1_flags_require_identifiers envNone ([] : CacheState) ⟨some "x", none⟩ none none
      (fun k r h => by simp [cacheGet] at h)).2.1 (by decide)).1,
    ((c1_flags_require_identifiers envNone ([] : CacheState) ⟨some "x", none⟩ none none
      (fun k r h => by simp [cacheGet] at h)).2.2 (by decide)).1⟩

end AdsChecker
